import Mathlib

/-
Verification of the XML-to-DataFrame extraction pipeline of
`crear_dataframes.py` and `ETL/crear_dataframes.py`.

The development shallowly embeds:
  * the ElementTree document model (labeled trees with attribute lists),
  * every extractor (`parse_event_info`, the two `parse_team_statistics`
    variants, `parse_player_statistics`),
  * the batch driver (`process_xml_file`, `process_all_games`), and
  * the pandas table-building steps of `create_dataframes` and the ETL
    per-table builders, with cell-wise coercion semantics
    (`pd.to_numeric(errors="coerce")`, `pd.to_datetime` with its default
    raise-on-invalid behavior, and the `== "true"` starter test).

Python dictionaries are modelled as insertion-ordered association lists
whose update keeps the original key position, exactly like `dict`.
Exceptions are modelled explicitly with `Except`; functions wrapped in a
Python `try`/`except` are total and dispatch on the run of their body.
-/

/-- An ElementTree element: a tag, an ordered attribute list, and the list
of child elements.  Tags stand for the namespace-qualified names looked up
through the fixed `NAMESPACE` binding of the scripts. -/
inductive Element where
  | mk (tag : String) (attrs : List (String × String)) (children : List Element)

def Element.tag : Element → String
  | .mk t _ _ => t

def Element.attrsL : Element → List (String × String)
  | .mk _ a _ => a

def Element.children : Element → List Element
  | .mk _ _ c => c

/-- Attribute lookup, the semantics of `elem.get(key)`: first match or
`None`. -/
def attrLookup : List (String × String) → String → Option String
  | [], _ => none
  | (k, v) :: rest, key => if k = key then some v else attrLookup rest key

/-- The ElementTree `elem.get(key)` accessor. -/
def Element.get (e : Element) (key : String) : Option String :=
  attrLookup e.attrsL key

mutual

/-- All proper descendants of an element in document (preorder) order;
the semantics of the `.//` axis, which excludes the element itself. -/
def descendants : Element → List Element
  | .mk _ _ cs => descList cs

def descList : List Element → List Element
  | [] => []
  | c :: cs => c :: (descendants c ++ descList cs)

end

/-- The semantics of `elem.findall(".//ns:tag")`: every descendant with
the given tag, in document order. -/
def findAllDesc (e : Element) (t : String) : List Element :=
  (descendants e).filter (fun d => d.tag = t)

/-- The semantics of `elem.find(".//ns:tag")`: the first descendant with
the given tag, or `None`. -/
def findDesc (e : Element) (t : String) : Option Element :=
  (findAllDesc e t).head?

/-- Children of an element with a given tag (one relative path step). -/
def childrenTag (e : Element) (t : String) : List Element :=
  e.children.filter (fun c => c.tag = t)

/-- The competitor list of both team/player extractors: the semantics of
`root.findall(".//ns:statistics/ns:totals/ns:competitors/ns:competitor")`
— a descendant `statistics` node followed by the child chain
`totals/competitors/competitor`, in document order. -/
def findCompetitors (root : Element) : List Element :=
  (findAllDesc root "statistics").flatMap (fun st =>
    (childrenTag st "totals").flatMap (fun tot =>
      (childrenTag tot "competitors").flatMap (fun cs =>
        childrenTag cs "competitor")))

/-- The player list of one competitor: the semantics of
`comp.findall(".//ns:players/ns:player")`. -/
def findPlayers (comp : Element) : List Element :=
  (findAllDesc comp "players").flatMap (fun ps => childrenTag ps "player")

/-- A Python dict with string keys and string-or-`None` values, as an
insertion-ordered association list (keys unique by construction of the
operations below). -/
abbrev Rec := List (String × Option String)

/-- Dict read access: `some v` when the key is present with value `v`
(where `v` itself may be the Python `None`), `none` when absent. -/
def dget : Rec → String → Option (Option String)
  | [], _ => none
  | (k, v) :: rest, key => if k = key then some v else dget rest key

/-- Dict write `d[key] = v`: replaces in place when the key is present
(keeping its position, as Python dicts do), appends otherwise. -/
def dset : Rec → String → Option String → Rec
  | [], key, v => [(key, v)]
  | (k, w) :: rest, key, v =>
    if k = key then (key, v) :: rest else (k, w) :: dset rest key v

/-- Key list of a record, in order. -/
def recKeys (r : Rec) : List String := r.map Prod.fst

/-- The verbatim attribute-bag passthrough loop
`for key, value in statistics_elem.attrib.items(): stats[key] = value`. -/
def bagInsert (r : Rec) (bag : List (String × String)) : Rec :=
  bag.foldl (fun acc kv => dset acc kv.1 (some kv.2)) r

/-- The attribute bag of a competitor or player: the attributes of its
first descendant `statistics` node, or nothing when that node is absent
(the `if statistics_elem is not None` guard). -/
def statsBag (e : Element) : List (String × String) :=
  match findDesc e "statistics" with
  | some st => st.attrsL
  | none => []

/-- Python's `a.get(k) if a is not None else None` idiom on an optional
element. -/
def optAttr (o : Option Element) (key : String) : Option String :=
  match o with
  | some e => e.get key
  | none => none

/-- The 21-field event dict literal built by `parse_event_info` from the
located `sport_event` (`se`), `sport_event_status` (`st`) and
`sport_event_context` (`ctx`) nodes, in source order. -/
def eventRec (se st ctx : Element) : Rec :=
  let sport := findDesc ctx "sport"
  let category := findDesc ctx "category"
  let competition := findDesc ctx "competition"
  let season := findDesc ctx "season"
  let round_elem := findDesc ctx "round"
  let ha := (findAllDesc se "competitor").foldl
    (fun (acc : Option String × Option String × Option String × Option String) comp =>
      if comp.get "qualifier" = some "home" then
        (comp.get "name", comp.get "id", acc.2.2.1, acc.2.2.2)
      else if comp.get "qualifier" = some "away" then
        (acc.1, acc.2.1, comp.get "name", comp.get "id")
      else acc)
    (none, none, none, none)
  let venue := findDesc se "venue"
  let attendance :=
    match findDesc se "sport_event_conditions" with
    | some conditions => optAttr (findDesc conditions "attendance") "count"
    | none => none
  [("event_id", se.get "id"),
   ("start_time", se.get "start_time"),
   ("sport_name", optAttr sport "name"),
   ("category_name", optAttr category "name"),
   ("competition_name", optAttr competition "name"),
   ("competition_id", optAttr competition "id"),
   ("season_name", optAttr season "name"),
   ("season_id", optAttr season "id"),
   ("round_number", optAttr round_elem "number"),
   ("home_team", ha.1),
   ("home_team_id", ha.2.1),
   ("away_team", ha.2.2.1),
   ("away_team_id", ha.2.2.2),
   ("venue_name", optAttr venue "name"),
   ("venue_city", optAttr venue "city_name"),
   ("venue_capacity", optAttr venue "capacity"),
   ("attendance", attendance),
   ("status", st.get "status"),
   ("match_status", st.get "match_status"),
   ("home_score", st.get "home_score"),
   ("away_score", st.get "away_score")]

/-- The event extractor `parse_event_info` of `crear_dataframes.py`.
When `sport_event` or `sport_event_status` is absent the code returns
`None` explicitly.  When `sport_event_context` is absent, the unguarded
`context.find(...)` raises `AttributeError`, which the surrounding
`except Exception` turns into `None` as well (after logging).  Otherwise
the record is built with null propagation for every optional sub-node. -/
def parse_event_info (root : Element) : Option Rec :=
  match findDesc root "sport_event", findDesc root "sport_event_status" with
  | some se, some st =>
    match findDesc se "sport_event_context" with
    | none => none
    | some ctx => some (eventRec se st ctx)
  | _, _ => none

/-- True exactly when `parse_event_info` takes its exception path (the
`AttributeError` on a missing context node), i.e. when it logs an error;
a plain missing event/status node returns `None` silently. -/
def eventInfoExn (root : Element) : Bool :=
  match findDesc root "sport_event", findDesc root "sport_event_status" with
  | some se, some _ => (findDesc se "sport_event_context").isNone
  | _, _ => false

namespace Src

/-- One team record of `parse_team_statistics` (`crear_dataframes.py`):
the four fixed fields followed by the verbatim statistics-attribute
passthrough. -/
def teamRec (eid : Option String) (comp : Element) : Rec :=
  bagInsert
    [("event_id", eid),
     ("team_id", comp.get "id"),
     ("team_name", comp.get "name"),
     ("team_qualifier", comp.get "qualifier")]
    (statsBag comp)

/-- The body of the `try` block of `parse_team_statistics`.  On an actual
element every operation of the walk (`get`, `find`, `attrib.items`,
`append`) is total, so the only raise point is the attribute access on an
absent (`None`) root, which happens before any record is appended. -/
def teamRun (root : Option Element) (eid : Option String) :
    Except String (List Rec) :=
  match root with
  | none => .error "AttributeError"
  | some r => .ok ((findCompetitors r).map (teamRec eid))

/-- `parse_team_statistics` of `crear_dataframes.py`: the `try` body with
the `except Exception` handler, which logs and falls through to return
the accumulator (still empty at the only raise point). -/
def parse_team_statistics (root : Option Element) (eid : Option String) :
    List Rec :=
  match teamRun root eid with
  | .ok l => l
  | .error _ => []

/-- One player record of `parse_player_statistics`: the seven fixed
fields (with `starter` still a raw string) followed by the verbatim
statistics-attribute passthrough. -/
def playerRec (eid : Option String) (comp player : Element) : Rec :=
  bagInsert
    [("event_id", eid),
     ("team_id", comp.get "id"),
     ("team_name", comp.get "name"),
     ("team_qualifier", comp.get "qualifier"),
     ("player_id", player.get "id"),
     ("player_name", player.get "name"),
     ("starter", player.get "starter")]
    (statsBag player)

/-- The body of the `try` block of `parse_player_statistics`; as for the
team walk, only the access on an absent root can raise. -/
def playerRun (root : Option Element) (eid : Option String) :
    Except String (List Rec) :=
  match root with
  | none => .error "AttributeError"
  | some r =>
    .ok ((findCompetitors r).flatMap
      (fun comp => (findPlayers comp).map (playerRec eid comp)))

/-- `parse_player_statistics` of `crear_dataframes.py`. -/
def parse_player_statistics (root : Option Element) (eid : Option String) :
    List Rec :=
  match playerRun root eid with
  | .ok l => l
  | .error _ => []

end Src

namespace Etl

/-- One team record of `parse_team_statistics`
(`ETL/crear_dataframes.py`): seven fixed fields — the four identifiers,
the event-level status fields, and a `score` taken from the event-level
`home_score`/`away_score` by the test `qualifier == 'home'` — followed by
the verbatim statistics-attribute passthrough. -/
def teamRec (eid : Option String) (es ms hs as' : Option String)
    (comp : Element) : Rec :=
  bagInsert
    [("event_id", eid),
     ("team_id", comp.get "id"),
     ("team_name", comp.get "name"),
     ("team_qualifier", comp.get "qualifier"),
     ("event_status", es),
     ("match_status", ms),
     ("score", if comp.get "qualifier" = some "home" then hs else as')]
    (statsBag comp)

/-- The body of the `try` block of the ETL `parse_team_statistics`.  The
status node is read with `is not None` guards, so as in the other
variant the only raise point is the access on an absent root, before any
record is appended. -/
def teamRun (root : Option Element) (eid : Option String) :
    Except String (List Rec) :=
  match root with
  | none => .error "AttributeError"
  | some r =>
    let st := findDesc r "sport_event_status"
    .ok ((findCompetitors r).map
      (teamRec eid (optAttr st "status") (optAttr st "match_status")
        (optAttr st "home_score") (optAttr st "away_score")))

/-- `parse_team_statistics` of `ETL/crear_dataframes.py`. -/
def parse_team_statistics (root : Option Element) (eid : Option String) :
    List Rec :=
  match teamRun root eid with
  | .ok l => l
  | .error _ => []

end Etl

/-- Whether an `Except` run ended in the exception branch. -/
def isErr {α : Type} (x : Except String α) : Bool :=
  match x with
  | .ok _ => false
  | .error _ => true

/-- `process_xml_file` of `crear_dataframes.py` over an already-attempted
document parse (`Except` = the `ET.ParseError` path).  Returns the
extracted data together with the logging side effect as a flag: `true`
exactly when this file caused an error log (parse failure, or an
extractor exception). -/
def process_xml_file (f : Except String Element) :
    (Option Rec × List Rec × List Rec) × Bool :=
  match f with
  | .error _ => ((none, [], []), true)
  | .ok root =>
    match parse_event_info root with
    | none => ((none, [], []), eventInfoExn root)
    | some ev =>
      let eid := (dget ev "event_id").join
      ((some ev, Src.parse_team_statistics (some root) eid,
        Src.parse_player_statistics (some root) eid),
       isErr (Src.teamRun (some root) eid)
         || isErr (Src.playerRun (some root) eid))

/-- The accumulation loop of `process_all_games`, with the position of
each file threaded through so the failure log can name it.  Data of a
file is kept only under the `if event_info:` guard (the 21-key event dict
is never empty, so Python truthiness is `isSome`). -/
def processFrom (i : Nat) : List (Except String Element) →
    List Rec × List Rec × List Rec × List Nat
  | [] => ([], [], [], [])
  | f :: rest =>
    let step := process_xml_file f
    let acc := processFrom (i + 1) rest
    let withFail := if step.2 then i :: acc.2.2.2 else acc.2.2.2
    match step.1.1 with
    | some ev =>
      (ev :: acc.1, step.1.2.1 ++ acc.2.1, step.1.2.2 ++ acc.2.2.1, withFail)
    | none => (acc.1, acc.2.1, acc.2.2.1, withFail)

/-- `process_all_games` of `crear_dataframes.py`: fold the per-file
processing over the corpus, collecting the three record streams and the
indices of the files that were reported as failed. -/
def process_all_games (files : List (Except String Element)) :
    List Rec × List Rec × List Rec × List Nat :=
  processFrom 0 files

/-- Accumulating decimal-digit reader; fails on a non-digit. -/
def digitsValAux : Nat → List Char → Option Nat
  | acc, [] => some acc
  | acc, c :: cs =>
    if c.isDigit then digitsValAux (acc * 10 + (c.toNat - 48)) cs else none

/-- Value of a non-empty all-digit character list. -/
def digitsVal (l : List Char) : Option Nat :=
  if l.isEmpty then none else digitsValAux 0 l

/-- Split a character list at its first `.`, if any. -/
def splitDot : List Char → List Char × Option (List Char)
  | [] => ([], none)
  | c :: cs =>
    if c = '.' then ([], some cs)
    else
      let (a, b) := splitDot cs
      (c :: a, b)

/-- An unsigned decimal numeral as an unnormalized scaled decimal
`(mantissa, scale)` denoting `mantissa / 10 ^ scale`: a non-empty
integer part and an optional all-digit fractional part. -/
def parseNumCore (l : List Char) : Option (Int × Nat) :=
  match splitDot l with
  | (ip, none) => (digitsVal ip).map (fun n => ((n : Int), 0))
  | (ip, some fp) =>
    match digitsVal ip, digitsVal fp with
    | some n, some f => some (((n * 10 ^ fp.length + f : Nat) : Int), fp.length)
    | _, _ => none

/-- Modelled from the pandas contract: the per-cell parse underlying
`pd.to_numeric` — an optional sign, a non-empty integer part, and an
optional fractional part, as a scaled decimal (a simplification of the
full numeric grammar; the claims only rely on some strings parsing and
others not). -/
def parseNum (s : String) : Option (Int × Nat) :=
  match s.toList with
  | '-' :: rest => (parseNumCore rest).map (fun q => (-q.1, q.2))
  | '+' :: rest => parseNumCore rest
  | l => parseNumCore l

/-- Modelled from the pandas contract: the per-cell datetime parse
underlying `pd.to_datetime` — an ISO-8601 `YYYY-MM-DD` date with a sane
month/day range, optionally followed by a `T`- or space-separated rest
(a simplification; the claims only rely on ISO strings parsing and
non-date strings not). -/
def parseTS (s : String) : Option (Nat × Nat × Nat) :=
  match s.toList with
  | y1 :: y2 :: y3 :: y4 :: '-' :: m1 :: m2 :: '-' :: d1 :: d2 :: rest =>
    match digitsVal [y1, y2, y3, y4], digitsVal [m1, m2], digitsVal [d1, d2] with
    | some y, some m, some d =>
      if 1 ≤ m ∧ m ≤ 12 ∧ 1 ≤ d ∧ d ≤ 31 then
        match rest with
        | [] => some (y, m, d)
        | c :: _ => if c = 'T' ∨ c = ' ' then some (y, m, d) else none
      else none
    | _, _, _ => none
  | _ => none

/-- A typed dataframe cell: null (NaN/NaT/None), a raw string, a parsed
number, a parsed timestamp, or a boolean. -/
inductive Cell where
  | null
  | str (s : String)
  | num (mant : Int) (scale : Nat)
  | ts (y m d : Nat)
  | boolC (b : Bool)
deriving DecidableEq

/-- A raw record value entering a dataframe: a present string stays a
string, an absent key or a Python `None` value becomes null. -/
def rawToCell : Option String → Cell
  | none => .null
  | some s => .str s

/-- Column union of `pd.DataFrame(list_of_dicts)`: every key seen across
the records, in first-seen order. -/
def dfCols (recs : List Rec) : List String :=
  recs.foldl
    (fun acc r =>
      (recKeys r).foldl (fun a k => if a.contains k then a else a ++ [k]) acc)
    []

/-- The row a record contributes, aligned with a column list: present
keys keep their value, missing keys become null. -/
def rowOf (cols : List String) (r : Rec) : List Cell :=
  cols.map (fun c => rawToCell ((dget r c).join))

/-- Cell-wise `pd.to_numeric(_, errors="coerce")`: a parsing string
becomes its number, a failing string becomes null, null stays null. -/
def numCoerce : Cell → Cell
  | .str s =>
    match parseNum s with
    | some q => .num q.1 q.2
    | none => .null
  | .null => .null
  | x => x

/-- Apply a per-column cell transform across one row. -/
def applyRow (colf : String → Cell → Cell) :
    List String → List Cell → List Cell
  | c :: cs, x :: xs => colf c x :: applyRow colf cs xs
  | _, _ => []

/-- Apply a fallible per-column cell transform across one row,
propagating the first raised error (pandas aborts the statement). -/
def applyRowE (colf : String → Cell → Except String Cell) :
    List String → List Cell → Except String (List Cell)
  | c :: cs, x :: xs => do
    let y ← colf c x
    let ys ← applyRowE colf cs xs
    .ok (y :: ys)
  | _, _ => .ok []

/-- Apply a fallible row transform across all rows. -/
def rowsE (f : List Cell → Except String (List Cell)) :
    List (List Cell) → Except String (List (List Cell))
  | [] => .ok []
  | r :: rs => do
    let r' ← f r
    let rs' ← rowsE f rs
    .ok (r' :: rs')

/-- A rectangular typed table: named columns and row-major cells. -/
structure DFt where
  cols : List String
  rows : List (List Cell)
deriving DecidableEq

/-- The cell of row `i` at the column named `k`, when both exist. -/
def cellGet : List String → List Cell → String → Option Cell
  | c :: cs, x :: xs, k => if c = k then some x else cellGet cs xs k
  | _, _, _ => none

/-- Table read access `table[k][i]`. -/
def cellAt (t : DFt) (i : Nat) (k : String) : Option Cell :=
  (t.rows.get? i).bind (fun row => cellGet t.cols row k)

/-- The per-column numeric pass `for col in columns.difference(allow)`:
columns on the non-numeric allowlist are untouched, every other column
is coerced cell by cell with `errors="coerce"`. -/
def numColf (allow : List String) (c : String) (x : Cell) : Cell :=
  if allow.contains c then x else numCoerce x

/-- The `starter` pass `df['starter'] = df['starter'] == 'true'`:
an exact elementwise equality test with the literal string `"true"`
(null and every other string give `false`). -/
def starterColf (c : String) (x : Cell) : Cell :=
  if c = "starter" then .boolC (decide (x = Cell.str "true")) else x

/-- Cell-wise `pd.to_datetime` with its default `errors` behavior:
null becomes NaT, a parsing string becomes a timestamp, and a
non-parsing string raises (aborting the statement). -/
def tsCoerceE : Cell → Except String Cell
  | .null => .ok .null
  | .str s =>
    match parseTS s with
    | some (y, m, d) => .ok (.ts y m d)
    | none => .error "ValueError"
  | x => .ok x

namespace Src

/-- The non-numeric allowlist of the team table
(`crear_dataframes.py`). -/
def teamAllow : List String :=
  ["event_id", "team_id", "team_name", "team_qualifier"]

/-- The non-numeric allowlist of the player table
(`crear_dataframes.py`). -/
def playerAllow : List String :=
  ["event_id", "team_id", "team_name", "team_qualifier",
   "player_id", "player_name", "starter"]

/-- The team-table block of `create_dataframes`: build the frame, then
numerically coerce every column outside the allowlist.  Total — no step
can raise. -/
def create_teams_df (data : List Rec) : DFt :=
  let cols := dfCols data
  ⟨cols, data.map (fun r => applyRow (numColf teamAllow) cols (rowOf cols r))⟩

/-- The player-table block of `create_dataframes`: numeric coercion of
the non-allowlisted columns, then the boolean `starter` pass.  Reading
`df_players['starter']` raises `KeyError` when no record carried the
key (the code has no presence guard), hence the `Except`. -/
def create_players_df (data : List Rec) : Except String DFt :=
  let cols := dfCols data
  if cols.contains "starter" then
    .ok ⟨cols,
      data.map (fun r =>
        applyRow starterColf cols
          (applyRow (numColf playerAllow) cols (rowOf cols r)))⟩
  else .error "KeyError"

end Src

/-- The columns of the events table coerced with
`pd.to_numeric(_, errors="coerce")` by `create_dataframes`. -/
def eventsNumCols : List String :=
  ["home_score", "away_score", "attendance", "venue_capacity", "round_number"]

/-- The per-column coercion of the events-table block: `start_time` goes
through `pd.to_datetime` (default raise-on-invalid), the five numeric
columns through `pd.to_numeric(_, errors="coerce")`, everything else is
untouched. -/
def eventsColf (c : String) (x : Cell) : Except String Cell :=
  if c = "start_time" then tsCoerceE x
  else if eventsNumCols.contains c then .ok (numCoerce x) else .ok x

/-- The events-table block of `create_dataframes`: each coerced column
is first read with `df_events[col]`, which raises `KeyError` when the
column is absent; then the coercions run, and the `pd.to_datetime` call
raises on any invalid non-null `start_time` cell. -/
def create_events_df (data : List Rec) : Except String DFt :=
  let cols := dfCols data
  if ("start_time" :: eventsNumCols).all cols.contains then
    (rowsE (applyRowE eventsColf cols) (data.map (rowOf cols))).map
      (fun rs => ⟨cols, rs⟩)
  else .error "KeyError"

namespace Etl

/-- The non-numeric allowlist of the ETL team table (two more
categorical fields than the other pipeline; `score` is deliberately not
on it). -/
def teamAllow : List String :=
  ["event_id", "team_id", "team_name", "team_qualifier",
   "event_status", "match_status"]

/-- The non-numeric allowlist of the ETL player table. -/
def playerAllow : List String :=
  ["event_id", "team_id", "team_name", "team_qualifier",
   "player_id", "player_name", "starter"]

/-- `create_team_statistics_dataframe` of `ETL/crear_dataframes.py`:
an empty input yields `pd.DataFrame()` (zero rows, zero columns) after
an error-level log message; otherwise build and numerically coerce the
non-allowlisted columns.  Total — no step can raise. -/
def create_team_statistics_dataframe (data : List Rec) : DFt :=
  if data.isEmpty then ⟨[], []⟩
  else
    let cols := dfCols data
    ⟨cols, data.map (fun r => applyRow (numColf teamAllow) cols (rowOf cols r))⟩

/-- `create_player_statistics_dataframe` of `ETL/crear_dataframes.py`:
as for teams, plus the `starter` boolean pass, which here sits behind an
`if 'starter' in df_players.columns` guard (a per-column transform that
touches nothing when the column is absent), keeping the builder total. -/
def create_player_statistics_dataframe (data : List Rec) : DFt :=
  if data.isEmpty then ⟨[], []⟩
  else
    let cols := dfCols data
    ⟨cols,
      data.map (fun r =>
        applyRow starterColf cols
          (applyRow (numColf playerAllow) cols (rowOf cols r)))⟩

end Etl

/-- The dictionary of dataframes returned by `create_dataframes`: each
table is present only when its input record list was non-empty (the
`if events_data:` / `if teams_data:` / `if players_data:` guards). -/
structure Dataframes where
  events : Option DFt
  team_statistics : Option DFt
  player_statistics : Option DFt
deriving DecidableEq

/-- `create_dataframes` of `crear_dataframes.py`.  A raise inside the
events or players block propagates out of the whole call (the function
has no handler), hence the `Except`. -/
def create_dataframes (events_data teams_data players_data : List Rec) :
    Except String Dataframes := do
  let ev ← if events_data.isEmpty then pure none
    else (create_events_df events_data).map some
  let tm := if teams_data.isEmpty then none
    else some (Src.create_teams_df teams_data)
  let pl ← if players_data.isEmpty then pure none
    else (Src.create_players_df players_data).map some
  .ok ⟨ev, tm, pl⟩

/-- The value a fallible per-column transform leaves in a cell when it
does not raise. -/
def colfTotal (colf : String → Cell → Except String Cell)
    (c : String) (x : Cell) : Cell :=
  match colf c x with
  | .ok y => y
  | .error _ => x


/-- A closed `sport_event_status` node used by the concrete documents. -/
def exStatusNode : Element :=
  .mk "sport_event_status"
    [("status", "closed"), ("match_status", "ended"),
     ("home_score", "2"), ("away_score", "1")] []

/-- A `sport_event` node with no `sport_event_context` descendant. -/
def exSportEventNoCtx : Element :=
  .mk "sport_event"
    [("id", "sr:sport_event:100"),
     ("start_time", "2024-01-01T12:00:00+00:00")] []

/-- A document whose event and status nodes are present but whose
context node is missing. -/
def exDocNoCtx : Element :=
  .mk "sport_event_summary" [] [exSportEventNoCtx, exStatusNode]

/-- A `sport_event` node with an empty `sport_event_context` (none of
the sport/category/competition/season/round sub-nodes). -/
def exSportEventCtx : Element :=
  .mk "sport_event"
    [("id", "sr:sport_event:100"),
     ("start_time", "2024-01-01T12:00:00+00:00")]
    [.mk "sport_event_context" [] []]

/-- A document with event, status and (empty) context nodes. -/
def exDocCtx : Element :=
  .mk "sport_event_summary" [] [exSportEventCtx, exStatusNode]

/-- A competitor whose `qualifier` is neither `home` nor `away`. -/
def exCompNeutral : Element :=
  .mk "competitor"
    [("id", "sr:competitor:9"), ("name", "Neutral FC"),
     ("qualifier", "neutral")] []

/-- A document whose single totals competitor carries a non-home,
non-away qualifier. -/
def exDocNeutral : Element :=
  .mk "sport_event_summary" []
    [exStatusNode,
     .mk "statistics" []
       [.mk "totals" [] [.mk "competitors" [] [exCompNeutral]]]]

/-- A player whose statistics attribute bag reuses the fixed key
`starter`. -/
def exPlayerClash : Element :=
  .mk "player"
    [("id", "sr:player:7"), ("name", "Seven"), ("starter", "true")]
    [.mk "statistics" [("starter", "override"), ("goals_scored", "1")] []]

/-- A competitor whose statistics attribute bag reuses the fixed key
`event_id`, with one player underneath. -/
def exCompClash : Element :=
  .mk "competitor"
    [("id", "sr:competitor:1"), ("name", "Alpha"), ("qualifier", "home")]
    [.mk "statistics" [("event_id", "HACK"), ("ball_possession", "55")] [],
     .mk "players" [] [exPlayerClash]]

/-- A document exercising the fixed-field/attribute-bag key collision. -/
def exDocClash : Element :=
  .mk "sport_event_summary" []
    [exStatusNode,
     .mk "statistics" []
       [.mk "totals" [] [.mk "competitors" [] [exCompClash]]]]

/-- Player records exercising every `starter` raw-value shape: the exact
string `true`, then `false`, the empty string, `True`, `1`, and a record
with the key absent. -/
def exStarterData : List Rec :=
  [[("starter", some "true"), ("player_id", some "p1")],
   [("starter", some "false"), ("player_id", some "p2")],
   [("starter", some ""), ("player_id", some "p3")],
   [("starter", some "True"), ("player_id", some "p4")],
   [("starter", some "1"), ("player_id", some "p5")],
   [("player_id", some "p6")]]

/-- A team record with one numeric-string statistic and one
non-numeric-string statistic. -/
def exNumRec : Rec :=
  [("event_id", some "sr:sport_event:100"), ("shots_total", some "12"),
   ("ball_possession", some "n/a")]

/-- A one-record team input for the numeric-coercion claims. -/
def exNumData : List Rec := [exNumRec]

/-- An event record whose `start_time` raw string is not a parseable
timestamp (all the columns touched by the events block are present). -/
def exBadEventRec : Rec :=
  [("event_id", some "sr:sport_event:100"),
   ("start_time", some "not-a-date"),
   ("home_score", some "2"), ("away_score", some "1"),
   ("attendance", none), ("venue_capacity", none), ("round_number", none)]

/-- An event record with a valid ISO start time. -/
def exGoodEventRec : Rec :=
  [("event_id", some "sr:sport_event:100"),
   ("start_time", some "2024-01-01T12:00:00+00:00"),
   ("home_score", some "2"), ("away_score", some "1"),
   ("attendance", none), ("venue_capacity", none), ("round_number", none)]

/-- An event record whose `start_time` value is the Python `None`. -/
def exNullStartRec : Rec :=
  [("event_id", some "sr:sport_event:101"), ("start_time", none)]

theorem applyRow_map (colf : String → Cell → Cell) (h : String → Cell) :
    ∀ cols, applyRow colf cols (cols.map h) =
      cols.map (fun c => colf c (h c)) := by
  intro cols
  induction cols with
  | nil => rfl
  | cons c cs ih => simp [applyRow, List.map_cons, ih]

theorem cellGet_map (h : String → Cell) :
    ∀ cols k, k ∈ cols → cellGet cols (cols.map h) k = some (h k) := by
  intro cols
  induction cols with
  | nil => intro k hk; cases hk
  | cons c cs ih =>
    intro k hk
    by_cases hc : c = k
    · subst hc; simp [cellGet]
    · rcases List.mem_cons.mp hk with h | hk
      · exact absurd h.symm hc
      · simpa [cellGet, hc] using ih k hk

theorem applyRowE_ok_eq (colf : String → Cell → Except String Cell)
    (h : String → Cell) :
    ∀ cols out, applyRowE colf cols (cols.map h) = .ok out →
      out = cols.map (fun c => colfTotal colf c (h c)) := by
  intro cols
  induction cols with
  | nil => intro out hout; simpa [applyRowE] using hout.symm
  | cons c cs ih =>
    intro out hout
    simp only [List.map_cons, applyRowE, bind, Except.bind] at hout
    rcases hy : colf c (h c) with e | y
    · rw [hy] at hout; cases hout
    · rw [hy] at hout
      rcases hys : applyRowE colf cs (cs.map h) with e | ys
      · rw [hys] at hout; cases hout
      · rw [hys] at hout
        cases hout
        simp [List.map_cons, colfTotal, hy, ih ys hys]

theorem applyRowE_ok_mem (colf : String → Cell → Except String Cell)
    (h : String → Cell) :
    ∀ cols out, applyRowE colf cols (cols.map h) = .ok out →
      ∀ c ∈ cols, isErr (colf c (h c)) = false := by
  intro cols
  induction cols with
  | nil => intro out _ c hc; cases hc
  | cons c0 cs ih =>
    intro out hout c hc
    simp only [List.map_cons, applyRowE, bind, Except.bind] at hout
    rcases hy : colf c0 (h c0) with e | y
    · rw [hy] at hout; cases hout
    · rw [hy] at hout
      rcases hys : applyRowE colf cs (cs.map h) with e | ys
      · rw [hys] at hout; cases hout
      · rcases List.mem_cons.mp hc with h | hc
        · subst h; simp [isErr, hy]
        · exact ih ys hys c hc

theorem rowsE_ok_get (f : List Cell → Except String (List Cell)) :
    ∀ rows rows', rowsE f rows = .ok rows' →
      ∀ i r, rows.get? i = some r →
        ∃ r', f r = .ok r' ∧ rows'.get? i = some r' := by
  intro rows
  induction rows with
  | nil => intro rows' _ i r hr; simp at hr
  | cons r0 rs ih =>
    intro rows' hok i r hr
    simp only [rowsE, bind, Except.bind] at hok
    rcases h0 : f r0 with e | r0'
    · rw [h0] at hok; cases hok
    · rw [h0] at hok
      rcases hs : rowsE f rs with e | rs'
      · rw [hs] at hok; cases hok
      · rw [hs] at hok
        cases hok
        cases i with
        | zero =>
          simp only [List.get?] at hr
          cases hr
          exact ⟨r0', h0, rfl⟩
        | succ j =>
          simp only [List.get?] at hr
          exact ih rs' hs j r hr

theorem rowsE_ok_of_mem (f : List Cell → Except String (List Cell)) :
    ∀ rows rows', rowsE f rows = .ok rows' →
      ∀ r ∈ rows, ∃ r', f r = .ok r' := by
  intro rows rows' hok r hr
  rcases List.get_of_mem hr with ⟨⟨i, hi⟩, rfl⟩
  rcases rowsE_ok_get f rows rows' hok i _ (List.get?_eq_get hi) with ⟨r', h1, _⟩
  exact ⟨r', h1⟩

theorem dget_dset_ne (k' k : String) (v : Option String) (hne : k' ≠ k) :
    ∀ r : Rec, dget (dset r k' v) k = dget r k := by
  intro r
  induction r with
  | nil => simp [dget, dset, hne]
  | cons p rest ih =>
    obtain ⟨pk, pv⟩ := p
    by_cases hp : pk = k'
    · subst hp
      simp [dset, dget, hne]
    · simp only [dset, if_neg hp]
      by_cases hk : pk = k
      · simp [dget, hk]
      · simp [dget, hk, ih]

theorem dget_bagInsert_of_ne (k : String) :
    ∀ (bag : List (String × String)) (r : Rec),
      (∀ kv ∈ bag, kv.1 ≠ k) → dget (bagInsert r bag) k = dget r k := by
  intro bag
  induction bag with
  | nil => intro r _; rfl
  | cons kv rest ih =>
    intro r hne
    have h1 : bagInsert r (kv :: rest) = bagInsert (dset r kv.1 (some kv.2)) rest := rfl
    rw [h1, ih _ (fun x hx => hne x (List.mem_cons_of_mem _ hx)),
      dget_dset_ne kv.1 k (some kv.2) (hne kv (List.mem_cons_self _ _))]

theorem mem_recKeys_dset (a k : String) (v : Option String) :
    ∀ r : Rec, a ∈ recKeys (dset r k v) ↔ a = k ∨ a ∈ recKeys r := by
  intro r
  induction r with
  | nil => simp [dset, recKeys]
  | cons p rest ih =>
    obtain ⟨pk, pv⟩ := p
    simp only [recKeys, List.map_cons, List.mem_cons] at ih
    by_cases hp : pk = k
    · subst hp
      rw [show dset ((pk, pv) :: rest) pk v = (pk, v) :: rest from by
        unfold dset; exact if_pos rfl]
      simp only [recKeys, List.map_cons, List.mem_cons]
      tauto
    · rw [show dset ((pk, pv) :: rest) k v = (pk, pv) :: dset rest k v from by
        simp only [dset]; rw [if_neg hp]]
      simp only [recKeys, List.map_cons, List.mem_cons]
      tauto

theorem mem_recKeys_bagInsert (a : String) :
    ∀ (bag : List (String × String)) (r : Rec),
      a ∈ recKeys (bagInsert r bag) ↔
        a ∈ recKeys r ∨ a ∈ bag.map Prod.fst := by
  intro bag
  induction bag with
  | nil => intro r; simp [bagInsert]
  | cons kv rest ih =>
    intro r
    have h1 : bagInsert r (kv :: rest) = bagInsert (dset r kv.1 (some kv.2)) rest := rfl
    rw [h1, ih]
    rw [mem_recKeys_dset]
    simp only [List.map_cons, List.mem_cons]
    tauto

theorem cellAt_one_pass (cols : List String) (colf : String → Cell → Cell)
    (data : List Rec) (i : Nat) (r : Rec) (hr : data.get? i = some r)
    (c : String) (hc : c ∈ cols) :
    cellAt ⟨cols, data.map (fun r => applyRow colf cols (rowOf cols r))⟩ i c =
      some (colf c (rawToCell ((dget r c).join))) := by
  unfold cellAt
  rw [List.get?_map, hr]
  show cellGet cols (applyRow colf cols (rowOf cols r)) c = _
  rw [show rowOf cols r = cols.map (fun c => rawToCell ((dget r c).join)) from rfl,
    applyRow_map]
  exact cellGet_map _ cols c hc

theorem cellAt_two_pass (cols : List String) (f g : String → Cell → Cell)
    (data : List Rec) (i : Nat) (r : Rec) (hr : data.get? i = some r)
    (c : String) (hc : c ∈ cols) :
    cellAt
      ⟨cols, data.map (fun r =>
        applyRow g cols (applyRow f cols (rowOf cols r)))⟩ i c =
      some (g c (f c (rawToCell ((dget r c).join)))) := by
  unfold cellAt
  rw [List.get?_map, hr]
  show cellGet cols (applyRow g cols (applyRow f cols (rowOf cols r))) c = _
  rw [show rowOf cols r = cols.map (fun c => rawToCell ((dget r c).join)) from rfl,
    applyRow_map, applyRow_map]
  exact cellGet_map _ cols c hc

theorem create_events_df_ok_inv (data : List Rec) (t : DFt)
    (hok : create_events_df data = .ok t) :
    (("start_time" :: eventsNumCols).all (dfCols data).contains = true) ∧
      ∃ rs, rowsE (applyRowE eventsColf (dfCols data))
          (data.map (rowOf (dfCols data))) = .ok rs ∧ t = ⟨dfCols data, rs⟩ := by
  unfold create_events_df at hok
  by_cases hall : ("start_time" :: eventsNumCols).all (dfCols data).contains = true
  · refine ⟨hall, ?_⟩
    rw [if_pos hall] at hok
    rcases hrs : rowsE (applyRowE eventsColf (dfCols data))
        (data.map (rowOf (dfCols data))) with e | rs
    · rw [hrs] at hok; cases hok
    · rw [hrs] at hok
      cases hok
      exact ⟨rs, rfl, rfl⟩
  · rw [if_neg hall] at hok; cases hok

theorem create_events_df_ok_cell (data : List Rec) (t : DFt)
    (hok : create_events_df data = .ok t)
    (i : Nat) (r : Rec) (hr : data.get? i = some r)
    (c : String) (hc : c ∈ dfCols data) :
    cellAt t i c = some (colfTotal eventsColf c (rawToCell ((dget r c).join))) := by
  rcases create_events_df_ok_inv data t hok with ⟨_, rs, hrs, rfl⟩
  unfold cellAt
  have hrow : (data.map (rowOf (dfCols data))).get? i = some (rowOf (dfCols data) r) := by
    rw [List.get?_map, hr]; rfl
  rcases rowsE_ok_get _ _ _ hrs i _ hrow with ⟨row', hrow', hget⟩
  rw [show (DFt.mk (dfCols data) rs).rows = rs from rfl, hget]
  have heq := applyRowE_ok_eq eventsColf
    (fun c => rawToCell ((dget r c).join)) (dfCols data) row'
    (by rw [show (dfCols data).map (fun c => rawToCell ((dget r c).join)) =
      rowOf (dfCols data) r from rfl]; exact hrow')
  rw [show (DFt.mk (dfCols data) rs).cols = dfCols data from rfl, heq]
  exact cellGet_map _ _ _ hc

theorem create_events_df_err_of_bad (data : List Rec) (r : Rec) (s : String)
    (hr : r ∈ data) (hs : dget r "start_time" = some (some s))
    (hbad : parseTS s = none) :
    isErr (create_events_df data) = true := by
  rcases hok : create_events_df data with e | t
  · rfl
  · exfalso
    rcases create_events_df_ok_inv data t hok with ⟨hall, rs, hrs, _⟩
    have hmem : "start_time" ∈ dfCols data := by
      have := List.all_eq_true.mp hall "start_time" (List.mem_cons_self _ _)
      simpa using this
    have hrowmem : rowOf (dfCols data) r ∈ data.map (rowOf (dfCols data)) :=
      List.mem_map_of_mem _ hr
    rcases rowsE_ok_of_mem _ _ _ hrs _ hrowmem with ⟨row', hrow'⟩
    have hnoerr := applyRowE_ok_mem eventsColf
      (fun c => rawToCell ((dget r c).join)) (dfCols data) row'
      (by rw [show (dfCols data).map (fun c => rawToCell ((dget r c).join)) =
        rowOf (dfCols data) r from rfl]; exact hrow') "start_time" hmem
    simp [hs, Option.join, eventsColf, tsCoerceE, hbad, rawToCell, isErr] at hnoerr


theorem rawToCell_eq_str_true (v : Option String) :
    decide (rawToCell v = Cell.str "true") = decide (v = some "true") := by
  rw [decide_eq_decide]
  cases v with
  | none => simp [rawToCell]
  | some s => simp [rawToCell]

/-- Claim C10 (confirmed): fixed fields and passthrough attributes share
one flat key space and the passthrough is written last, so a statistics
attribute named like a fixed field overwrites it.  In `exDocClash` the
competitor's statistics bag carries `event_id="HACK"` and the player's
bag carries `starter="override"`; both clobber the fixed fields of the
emitted records (the passed event id is `sr:sport_event:100` and the
player's own `starter` attribute is `"true"`). -/
theorem C10_bag_overwrites_fixed_fields :
    ((Etl.parse_team_statistics (some exDocClash)
        (some "sr:sport_event:100")).get? 0).map (fun r => dget r "event_id") =
      some (some (some "HACK")) ∧
    ((Src.parse_player_statistics (some exDocClash)
        (some "sr:sport_event:100")).get? 0).map (fun r => dget r "starter") =
      some (some (some "override")) := by
  exact ⟨by decide, by decide⟩

/-- Claim C2 (confirmed): when the `try` body of either
`parse_team_statistics` variant raises, the handler returns the
accumulator, which is still empty at the only structural raise point
(the attribute access on an absent root, which precedes the first
append); and the exception never propagates — the function is total. -/
theorem C2_exception_yields_empty (root : Option Element) (eid : Option String) :
    (∀ e, Src.teamRun root eid = .error e →
      Src.parse_team_statistics root eid = []) ∧
    (∀ e, Etl.teamRun root eid = .error e →
      Etl.parse_team_statistics root eid = []) := by
  constructor
  · intro e he; unfold Src.parse_team_statistics; rw [he]
  · intro e he; unfold Etl.parse_team_statistics; rw [he]

/-- Witness for C2: the raise point is reachable (absent root), and
there both extractors indeed return the empty record list. -/
theorem C2_witness :
    Src.teamRun none (some "sr:sport_event:100") = .error "AttributeError" ∧
    Src.parse_team_statistics none (some "sr:sport_event:100") = [] ∧
    Etl.parse_team_statistics none (some "sr:sport_event:100") = [] :=
  ⟨rfl,
   (C2_exception_yields_empty none (some "sr:sport_event:100")).1 _ rfl,
   (C2_exception_yields_empty none (some "sr:sport_event:100")).2 _ rfl⟩

/-- Counterexample to claim C5 as stated: in `exDocNeutral` the single
totals competitor has qualifier `"neutral"` — neither `home` nor `away`
— yet its emitted record's `score` field holds the event-level
`away_score` value `"1"` instead of no score, because the source decides
with `home_score if qualifier == 'home' else away_score`. -/
theorem C5_counterexample :
    ((Etl.parse_team_statistics (some exDocNeutral)
        (some "sr:sport_event:100")).get? 0).map
      (fun r => (dget r "team_qualifier", dget r "score")) =
      some (some (some "neutral"), some (some "1")) := by
  decide

/-- Claim C5 (amended): the score of every emitted ETL team record is
sourced from the event-level status node, with `home_score` exactly for
qualifier `"home"` and `away_score` for every other qualifier (including
missing or non-`away` ones) — not "no score" for a foreign qualifier.
The statistics bag must not itself carry a `score` key, or the
passthrough would overwrite the field. -/
theorem C5_amended_score_attribution (root : Element) (eid : Option String)
    (i : Nat) (comp : Element)
    (hcomp : (findCompetitors root).get? i = some comp)
    (hbag : ∀ kv ∈ statsBag comp, kv.1 ≠ "score") :
    ∃ r, (Etl.parse_team_statistics (some root) eid).get? i = some r ∧
      dget r "score" = some
        (if comp.get "qualifier" = some "home"
          then optAttr (findDesc root "sport_event_status") "home_score"
          else optAttr (findDesc root "sport_event_status") "away_score") := by
  have hmap : Etl.parse_team_statistics (some root) eid =
      (findCompetitors root).map
        (Etl.teamRec eid
          (optAttr (findDesc root "sport_event_status") "status")
          (optAttr (findDesc root "sport_event_status") "match_status")
          (optAttr (findDesc root "sport_event_status") "home_score")
          (optAttr (findDesc root "sport_event_status") "away_score")) := rfl
  refine ⟨Etl.teamRec eid
      (optAttr (findDesc root "sport_event_status") "status")
      (optAttr (findDesc root "sport_event_status") "match_status")
      (optAttr (findDesc root "sport_event_status") "home_score")
      (optAttr (findDesc root "sport_event_status") "away_score") comp, ?_, ?_⟩
  · rw [hmap, List.get?_map, hcomp]; rfl
  · unfold Etl.teamRec
    rw [dget_bagInsert_of_ne "score" (statsBag comp) _ hbag]
    rfl

/-- Witness for C5 (amended), at the concrete collision-free home
competitor of `exDocNeutral`. -/
theorem C5_witness :
    ∃ r, (Etl.parse_team_statistics (some exDocNeutral)
        (some "sr:sport_event:100")).get? 0 = some r ∧
      dget r "score" = some
        (if exCompNeutral.get "qualifier" = some "home"
          then optAttr (findDesc exDocNeutral "sport_event_status") "home_score"
          else optAttr (findDesc exDocNeutral "sport_event_status") "away_score") :=
  C5_amended_score_attribution exDocNeutral (some "sr:sport_event:100") 0
    exCompNeutral rfl (by decide)

/-- Counterexample to claim C8 as stated: `create_dataframes` given
three empty record sequences returns a dictionary with no tables in it
(the `if events_data:` guards skip the blocks), rather than producing
empty zero-row tables. -/
theorem C8_counterexample :
    create_dataframes [] [] [] = .ok ⟨none, none, none⟩ := by
  rfl

/-- Claim C8 (amended): for the empty record sequence nothing raises and
nothing is treated as a table-construction failure, but the shape
differs by builder: the ETL per-table builders return `pd.DataFrame()` —
an empty table with zero rows (after logging an error-level message) —
while `create_dataframes` simply omits the table from its result
dictionary. -/
theorem C8_amended_empty_input :
    Etl.create_team_statistics_dataframe [] = ⟨[], []⟩ ∧
    (Etl.create_team_statistics_dataframe []).rows.length = 0 ∧
    Etl.create_player_statistics_dataframe [] = ⟨[], []⟩ ∧
    (Etl.create_player_statistics_dataframe []).rows.length = 0 ∧
    create_dataframes [] [] [] = .ok ⟨none, none, none⟩ :=
  ⟨rfl, rfl, rfl, rfl, rfl⟩

/-- Counterexample to claim C1 as stated: in `exDocNoCtx` both the
top-level event node and the status node are present but the optional
context node is missing, and `parse_event_info` returns the absent
record (`None`) instead of a record with null context fields — the
unguarded `context.find(...)` raises and the handler returns `None`. -/
theorem C1_counterexample :
    (findDesc exDocNoCtx "sport_event").isSome = true ∧
    (findDesc exDocNoCtx "sport_event_status").isSome = true ∧
    (findDesc exDocNoCtx "sport_event").map
        (fun se => (findDesc se "sport_event_context").isNone) = some true ∧
    parse_event_info exDocNoCtx = none := by
  refine ⟨by decide, by decide, by decide, by decide⟩

/-- Claim C1 (amended): when the event node, the status node and the
context node are all present, each missing
sport/category/competition/season/round sub-node yields null values for
its fields while the record itself is returned; but when the context
node itself is missing the whole record is absent (see the
counterexample). -/
theorem C1_amended_optional_subnodes (root se st ctx : Element)
    (hse : findDesc root "sport_event" = some se)
    (hst : findDesc root "sport_event_status" = some st)
    (hctx : findDesc se "sport_event_context" = some ctx) :
    ∃ r, parse_event_info root = some r ∧
      (findDesc ctx "sport" = none → dget r "sport_name" = some none) ∧
      (findDesc ctx "category" = none → dget r "category_name" = some none) ∧
      (findDesc ctx "competition" = none →
        dget r "competition_name" = some none ∧
        dget r "competition_id" = some none) ∧
      (findDesc ctx "season" = none →
        dget r "season_name" = some none ∧ dget r "season_id" = some none) ∧
      (findDesc ctx "round" = none → dget r "round_number" = some none) := by
  refine ⟨eventRec se st ctx, ?_, ?_, ?_, ?_, ?_, ?_⟩
  · unfold parse_event_info
    rw [hse, hst]
    show (match findDesc se "sport_event_context" with
      | none => none
      | some ctx => some (eventRec se st ctx)) = some (eventRec se st ctx)
    rw [hctx]
  · intro h
    rw [show dget (eventRec se st ctx) "sport_name" =
      some (optAttr (findDesc ctx "sport") "name") from rfl, h]
    rfl
  · intro h
    rw [show dget (eventRec se st ctx) "category_name" =
      some (optAttr (findDesc ctx "category") "name") from rfl, h]
    rfl
  · intro h
    constructor
    · rw [show dget (eventRec se st ctx) "competition_name" =
        some (optAttr (findDesc ctx "competition") "name") from rfl, h]
      rfl
    · rw [show dget (eventRec se st ctx) "competition_id" =
        some (optAttr (findDesc ctx "competition") "id") from rfl, h]
      rfl
  · intro h
    constructor
    · rw [show dget (eventRec se st ctx) "season_name" =
        some (optAttr (findDesc ctx "season") "name") from rfl, h]
      rfl
    · rw [show dget (eventRec se st ctx) "season_id" =
        some (optAttr (findDesc ctx "season") "id") from rfl, h]
      rfl
  · intro h
    rw [show dget (eventRec se st ctx) "round_number" =
      some (optAttr (findDesc ctx "round") "number") from rfl, h]
    rfl

/-- Witness for C1 (amended): `exDocCtx` has event, status and an empty
context node; the record is returned and its context fields are null. -/
theorem C1_witness :
    ∃ r, parse_event_info exDocCtx = some r ∧
      dget r "sport_name" = some none ∧
      dget r "round_number" = some none := by
  obtain ⟨r, h1, h2, _, _, _, h6⟩ :=
    C1_amended_optional_subnodes exDocCtx exSportEventCtx exStatusNode
      (.mk "sport_event_context" [] []) rfl rfl rfl
  exact ⟨r, h1, h2 rfl, h6 rfl⟩

/-- Counterexample to claim C9 as stated: on `exDocClash` the two team
extraction code paths emit records over the same competitor, but the
ETL record's key set contains `score` (and `event_status`,
`match_status`) while the other pipeline's record does not — the field
name sets differ. -/
theorem C9_counterexample :
    ∃ rs re,
      (Src.parse_team_statistics (some exDocClash)
        (some "sr:sport_event:100")).get? 0 = some rs ∧
      (Etl.parse_team_statistics (some exDocClash)
        (some "sr:sport_event:100")).get? 0 = some re ∧
      "score" ∈ recKeys re ∧ "score" ∉ recKeys rs := by
  refine ⟨_, _, rfl, rfl, by decide, by decide⟩

/-- Claim C9 (amended): the two team extraction code paths always emit
the same number of records (they walk the same competitor list), and
their per-record field-name sets agree up to exactly the three extra
fixed fields of the ETL variant: `event_status`, `match_status` and
`score`. -/
theorem C9_amended_shape_agreement (root : Element) (eid : Option String) :
    (Src.parse_team_statistics (some root) eid).length =
      (Etl.parse_team_statistics (some root) eid).length ∧
    ∀ i rs re,
      (Src.parse_team_statistics (some root) eid).get? i = some rs →
      (Etl.parse_team_statistics (some root) eid).get? i = some re →
      ∀ k, k ∈ recKeys re ↔
        (k ∈ recKeys rs ∨ k = "event_status" ∨ k = "match_status" ∨
          k = "score") := by
  have hsrc : Src.parse_team_statistics (some root) eid =
      (findCompetitors root).map (Src.teamRec eid) := rfl
  have hetl : Etl.parse_team_statistics (some root) eid =
      (findCompetitors root).map
        (Etl.teamRec eid
          (optAttr (findDesc root "sport_event_status") "status")
          (optAttr (findDesc root "sport_event_status") "match_status")
          (optAttr (findDesc root "sport_event_status") "home_score")
          (optAttr (findDesc root "sport_event_status") "away_score")) := rfl
  constructor
  · rw [hsrc, hetl, List.length_map, List.length_map]
  · intro i rs re hrs hre k
    rw [hsrc, List.get?_map] at hrs
    rw [hetl, List.get?_map] at hre
    rcases hcomp : (findCompetitors root).get? i with _ | comp
    · rw [hcomp] at hrs; cases hrs
    · rw [hcomp] at hrs hre
      simp only [Option.map_some', Option.some.injEq] at hrs hre
      subst hrs
      subst hre
      unfold Src.teamRec Etl.teamRec
      rw [mem_recKeys_bagInsert, mem_recKeys_bagInsert]
      rw [show recKeys [("event_id", eid), ("team_id", comp.get "id"),
          ("team_name", comp.get "name"),
          ("team_qualifier", comp.get "qualifier")] =
        ["event_id", "team_id", "team_name", "team_qualifier"] from rfl]
      rw [show recKeys [("event_id", eid), ("team_id", comp.get "id"),
          ("team_name", comp.get "name"),
          ("team_qualifier", comp.get "qualifier"),
          ("event_status",
            optAttr (findDesc root "sport_event_status") "status"),
          ("match_status",
            optAttr (findDesc root "sport_event_status") "match_status"),
          ("score",
            if comp.get "qualifier" = some "home" then
              optAttr (findDesc root "sport_event_status") "home_score"
            else optAttr (findDesc root "sport_event_status") "away_score")] =
        ["event_id", "team_id", "team_name", "team_qualifier",
          "event_status", "match_status", "score"] from rfl]
      simp only [List.mem_cons, List.not_mem_nil]
      tauto

/-- Witness for C9 (amended), instantiated on the concrete document
`exDocClash` and the key `score`. -/
theorem C9_witness :
    ∃ rs re,
      (Src.parse_team_statistics (some exDocClash)
        (some "sr:sport_event:100")).get? 0 = some rs ∧
      (Etl.parse_team_statistics (some exDocClash)
        (some "sr:sport_event:100")).get? 0 = some re ∧
      ("score" ∈ recKeys re ↔
        ("score" ∈ recKeys rs ∨ ("score" : String) = "event_status" ∨
          ("score" : String) = "match_status" ∨
          ("score" : String) = "score")) := by
  refine ⟨_, _, rfl, rfl, ?_⟩
  exact (C9_amended_shape_agreement exDocClash
    (some "sr:sport_event:100")).2 0 _ _ rfl rfl "score"

/-- Claim C4 (confirmed): in both player-table builders the `starter`
cell of every row is the boolean result of the exact equality test of
the raw stored value with the literal string `"true"`; a raw `"false"`,
`""`, `"True"`, `"1"` or an absent value all give `false`.  (`starter`
is on the numeric allowlist, so the numeric pass leaves the raw value
untouched before the test.) -/
theorem C4_starter_exact_equality (data : List Rec) :
    (∀ t, Src.create_players_df data = .ok t →
      ∀ i r, data.get? i = some r →
        cellAt t i "starter" =
          some (.boolC (decide ((dget r "starter").join = some "true")))) ∧
    ((dfCols data).contains "starter" = true →
      ∀ i r, data.get? i = some r →
        cellAt (Etl.create_player_statistics_dataframe data) i "starter" =
          some (.boolC (decide ((dget r "starter").join = some "true")))) := by
  constructor
  · intro t hok i r hr
    unfold Src.create_players_df at hok
    by_cases hc : (dfCols data).contains "starter" = true
    · rw [if_pos hc] at hok
      cases hok
      have hmem : "starter" ∈ dfCols data := by simpa using hc
      rw [cellAt_two_pass _ _ _ _ _ _ hr _ hmem]
      rw [show numColf Src.playerAllow "starter"
            (rawToCell ((dget r "starter").join)) =
          rawToCell ((dget r "starter").join) from by
        unfold numColf; rw [if_pos (by rfl)]]
      unfold starterColf
      rw [if_pos rfl, rawToCell_eq_str_true]
    · rw [if_neg hc] at hok; cases hok
  · intro hc i r hr
    cases data with
    | nil => simp at hr
    | cons d ds =>
      have hmem : "starter" ∈ dfCols (d :: ds) := by simpa using hc
      unfold Etl.create_player_statistics_dataframe
      rw [if_neg (by simp)]
      rw [cellAt_two_pass _ _ _ _ _ _ hr _ hmem]
      rw [show numColf Etl.playerAllow "starter"
            (rawToCell ((dget r "starter").join)) =
          rawToCell ((dget r "starter").join) from by
        unfold numColf; rw [if_pos (by rfl)]]
      unfold starterColf
      rw [if_pos rfl, rawToCell_eq_str_true]

/-- Witness for C4, on records carrying the raw values `"true"`,
`"True"`, `"1"` and an absent `starter` key; the equality test decides
to `true` only for the first. -/
theorem C4_witness :
    (dfCols exStarterData).contains "starter" = true ∧
    cellAt (Etl.create_player_statistics_dataframe exStarterData) 0 "starter" =
      some (.boolC (decide ((dget [("starter", some "true"),
        ("player_id", some "p1")] "starter").join = some "true"))) ∧
    cellAt (Etl.create_player_statistics_dataframe exStarterData) 3 "starter" =
      some (.boolC (decide ((dget [("starter", some "True"),
        ("player_id", some "p4")] "starter").join = some "true"))) ∧
    cellAt (Etl.create_player_statistics_dataframe exStarterData) 4 "starter" =
      some (.boolC (decide ((dget [("starter", some "1"),
        ("player_id", some "p5")] "starter").join = some "true"))) ∧
    cellAt (Etl.create_player_statistics_dataframe exStarterData) 5 "starter" =
      some (.boolC (decide ((dget [("player_id", some "p6")]
        "starter").join = some "true"))) ∧
    cellAt (Etl.create_player_statistics_dataframe exStarterData) 0 "starter" =
      some (.boolC true) ∧
    cellAt (Etl.create_player_statistics_dataframe exStarterData) 1 "starter" =
      some (.boolC false) ∧
    cellAt (Etl.create_player_statistics_dataframe exStarterData) 2 "starter" =
      some (.boolC false) ∧
    cellAt (Etl.create_player_statistics_dataframe exStarterData) 3 "starter" =
      some (.boolC false) ∧
    cellAt (Etl.create_player_statistics_dataframe exStarterData) 4 "starter" =
      some (.boolC false) ∧
    cellAt (Etl.create_player_statistics_dataframe exStarterData) 5 "starter" =
      some (.boolC false) := by
  refine ⟨by decide,
    (C4_starter_exact_equality exStarterData).2 (by decide) 0 _ rfl,
    (C4_starter_exact_equality exStarterData).2 (by decide) 3 _ rfl,
    (C4_starter_exact_equality exStarterData).2 (by decide) 4 _ rfl,
    (C4_starter_exact_equality exStarterData).2 (by decide) 5 _ rfl,
    by decide, by decide, by decide, by decide, by decide, by decide⟩

/-- Claim C7 (confirmed): in the team-table block of
`create_dataframes` and in the ETL player-table builder, every column
outside the fixed non-numeric allowlist is coerced cell by cell: a raw
string that parses as a number becomes that number and a raw string
that fails the parse becomes null (an absent value stays null).  Both
builders are total functions — the coercion cannot raise. -/
theorem C7_numeric_coercion (data : List Rec) (c : String) (i : Nat) (r : Rec)
    (hr : data.get? i = some r) (hc : c ∈ dfCols data) :
    (Src.teamAllow.contains c = false →
      cellAt (Src.create_teams_df data) i c =
        some (match (dget r c).join with
          | none => Cell.null
          | some s =>
            match parseNum s with
            | some q => Cell.num q.1 q.2
            | none => Cell.null)) ∧
    (Etl.playerAllow.contains c = false →
      cellAt (Etl.create_player_statistics_dataframe data) i c =
        some (match (dget r c).join with
          | none => Cell.null
          | some s =>
            match parseNum s with
            | some q => Cell.num q.1 q.2
            | none => Cell.null)) := by
  constructor
  · intro hallow
    unfold Src.create_teams_df
    rw [cellAt_one_pass _ _ _ _ _ hr _ hc]
    rw [show numColf Src.teamAllow c (rawToCell ((dget r c).join)) =
      numCoerce (rawToCell ((dget r c).join)) from by
      unfold numColf; rw [if_neg (by rw [hallow]; exact Bool.false_ne_true)]]
    rcases hv : (dget r c).join with _ | s
    · rfl
    · rfl
  · intro hallow
    have hcs : c ≠ "starter" := by
      intro h
      rw [h] at hallow
      exact absurd hallow (by decide)
    cases data with
    | nil => simp at hr
    | cons d ds =>
      unfold Etl.create_player_statistics_dataframe
      rw [if_neg (by simp)]
      rw [cellAt_two_pass _ _ _ _ _ _ hr _ hc]
      rw [show numColf Etl.playerAllow c (rawToCell ((dget r c).join)) =
        numCoerce (rawToCell ((dget r c).join)) from by
        unfold numColf; rw [if_neg (by rw [hallow]; exact Bool.false_ne_true)]]
      rw [show starterColf c (numCoerce (rawToCell ((dget r c).join))) =
        numCoerce (rawToCell ((dget r c).join)) from by
        unfold starterColf; rw [if_neg hcs]]
      rcases hv : (dget r c).join with _ | s
      · rfl
      · rfl

/-- Witness for C7, on a record with a numeric statistic string, a
non-numeric statistic string, and the allowlisted `event_id` column:
`shots_total="12"` becomes the number 12, `ball_possession="n/a"`
becomes null, in both builders. -/
theorem C7_witness :
    cellAt (Src.create_teams_df exNumData) 0 "shots_total" =
      some (match (dget exNumRec "shots_total").join with
        | none => Cell.null
        | some s =>
          match parseNum s with
          | some q => Cell.num q.1 q.2
          | none => Cell.null) ∧
    cellAt (Etl.create_player_statistics_dataframe exNumData) 0
        "ball_possession" =
      some (match (dget exNumRec "ball_possession").join with
        | none => Cell.null
        | some s =>
          match parseNum s with
          | some q => Cell.num q.1 q.2
          | none => Cell.null) ∧
    cellAt (Src.create_teams_df exNumData) 0 "shots_total" =
      some (Cell.num 12 0) ∧
    cellAt (Src.create_teams_df exNumData) 0 "ball_possession" =
      some Cell.null ∧
    cellAt (Src.create_teams_df exNumData) 0 "event_id" =
      some (Cell.str "sr:sport_event:100") := by
  refine ⟨(C7_numeric_coercion exNumData "shots_total" 0 exNumRec rfl
      (by decide)).1 (by decide),
    (C7_numeric_coercion exNumData "ball_possession" 0 exNumRec rfl
      (by decide)).2 (by decide),
    by decide, by decide, by decide⟩

/-- Counterexample to claim C3 as stated: `pd.to_datetime` is called
without `errors="coerce"`, so one event record whose raw `start_time`
is the unparseable string `"not-a-date"` makes the whole
`create_dataframes` call raise instead of yielding a null cell. -/
theorem C3_counterexample :
    isErr (create_dataframes [exBadEventRec] [] []) = true := by
  decide

/-- Claim C3 (amended): the `start_time` column is coerced cell by cell
and a missing raw value becomes null (NaT), but an invalid raw string
raises and aborts table construction — only valid-or-missing values
survive, as timestamps or nulls. -/
theorem C3_amended_start_time (data : List Rec) :
    (∀ r s, r ∈ data → dget r "start_time" = some (some s) →
      parseTS s = none → isErr (create_events_df data) = true) ∧
    (∀ t, create_events_df data = .ok t →
      ∀ i r, data.get? i = some r →
        ((dget r "start_time").join = none →
          cellAt t i "start_time" = some .null) ∧
        (∀ s y m d, (dget r "start_time").join = some s →
          parseTS s = some (y, m, d) →
          cellAt t i "start_time" = some (.ts y m d))) := by
  constructor
  · intro r s hr hs hbad
    exact create_events_df_err_of_bad data r s hr hs hbad
  · intro t hok i r hr
    have hmem : "start_time" ∈ dfCols data := by
      rcases create_events_df_ok_inv data t hok with ⟨hall, _⟩
      have := List.all_eq_true.mp hall "start_time" (List.mem_cons_self _ _)
      simpa using this
    have hcell := create_events_df_ok_cell data t hok i r hr "start_time" hmem
    constructor
    · intro hnull
      rw [hcell, hnull]
      rfl
    · intro s y m d hsome hts
      rw [hcell, hsome]
      simp [colfTotal, eventsColf, tsCoerceE, rawToCell, hts]

/-- Witness for C3 (amended): a two-record input whose first record has
a valid ISO start time and whose second carries a `None` start time —
the builder succeeds, yielding a timestamp and a null. -/
theorem C3_witness :
    ∃ t, create_events_df [exGoodEventRec, exNullStartRec] = .ok t ∧
      cellAt t 0 "start_time" = some (.ts 2024 1 1) ∧
      cellAt t 1 "start_time" = some .null := by
  refine ⟨_, rfl, ?_, ?_⟩
  · exact ((C3_amended_start_time [exGoodEventRec, exNullStartRec]).2 _ rfl
      0 _ rfl).2 "2024-01-01T12:00:00+00:00" 2024 1 1 rfl (by decide)
  · exact ((C3_amended_start_time [exGoodEventRec, exNullStartRec]).2 _ rfl
      1 _ rfl).1 rfl

/-- Claim C6 (confirmed): for a corpus of five documents whose third
(index 2, document 3 in one-based counting) fails to parse while the
other four are well-formed with a usable event record, the batch driver
yields exactly the four event records in order, reports exactly the
third document as failed, and — being a total function — lets no
exception escape. -/
theorem C6_batch_isolation (f1 f2 f4 f5 : Except String Element)
    (r1 r2 r4 r5 : Element) (ev1 ev2 ev4 ev5 : Rec) (msg : String)
    (h1 : f1 = .ok r1) (h2 : f2 = .ok r2) (h4 : f4 = .ok r4)
    (h5 : f5 = .ok r5)
    (he1 : parse_event_info r1 = some ev1)
    (he2 : parse_event_info r2 = some ev2)
    (he4 : parse_event_info r4 = some ev4)
    (he5 : parse_event_info r5 = some ev5) :
    (process_all_games [f1, f2, .error msg, f4, f5]).1 =
      [ev1, ev2, ev4, ev5] ∧
    (process_all_games [f1, f2, .error msg, f4, f5]).1.length = 4 ∧
    (process_all_games [f1, f2, .error msg, f4, f5]).2.2.2 = [2] := by
  subst h1 h2 h4 h5
  have hstep : ∀ (i : Nat) (r : Element) (ev : Rec),
      parse_event_info r = some ev →
      process_xml_file (.ok r) =
        ((some ev,
          Src.parse_team_statistics (some r) ((dget ev "event_id").join),
          Src.parse_player_statistics (some r) ((dget ev "event_id").join)),
         false) := by
    intro _ r ev he
    simp only [process_xml_file]
    rw [he]
    rfl
  have e1 := hstep 0 r1 ev1 he1
  have e2 := hstep 1 r2 ev2 he2
  have e4 := hstep 3 r4 ev4 he4
  have e5 := hstep 4 r5 ev5 he5
  unfold process_all_games
  simp only [processFrom, e1, e2, e4, e5]
  simp only [process_xml_file]
  simp

/-- Witness for C6: a concrete five-document corpus whose middle entry
is a parse failure; four event records come out and exactly index 2 is
reported. -/
theorem C6_witness :
    (process_all_games [.ok exDocCtx, .ok exDocCtx, .error "mismatched tag",
        .ok exDocCtx, .ok exDocCtx]).1 =
      [eventRec exSportEventCtx exStatusNode (.mk "sport_event_context" [] []),
       eventRec exSportEventCtx exStatusNode (.mk "sport_event_context" [] []),
       eventRec exSportEventCtx exStatusNode (.mk "sport_event_context" [] []),
       eventRec exSportEventCtx exStatusNode (.mk "sport_event_context" [] [])] ∧
    (process_all_games [.ok exDocCtx, .ok exDocCtx, .error "mismatched tag",
        .ok exDocCtx, .ok exDocCtx]).1.length = 4 ∧
    (process_all_games [.ok exDocCtx, .ok exDocCtx, .error "mismatched tag",
        .ok exDocCtx, .ok exDocCtx]).2.2.2 = [2] :=
  C6_batch_isolation _ _ _ _ exDocCtx exDocCtx exDocCtx exDocCtx _ _ _ _
    "mismatched tag" rfl rfl rfl rfl rfl rfl rfl rfl
